import Mathlib

/-!
Verification of the Shopwice Django REST backend (apps `api` and `products`).

The development shallowly embeds the relevant Python/Django code:

* Python strings are Lean `String`s and the handful of string methods the code
  uses (`strip`, `replace`, slicing, `startswith`, `isdigit`, `lower`) are
  defined over `String.data` so that everything reduces in the kernel;
* Django model rows are Lean structures, tables are `List`s of rows, and each
  ORM call (`get`, `filter`, `save`) is given its documented semantics,
  including `DoesNotExist` / `MultipleObjectsReturned` and the `FieldError`
  raised by a lookup on a field the model does not have;
* serializer `validate` methods become functions into `Except`-style outcome
  types whose error values carry the field key and message of the raised
  `ValidationError`; an exception class that DRF does not catch is modelled as
  a distinct `serverError` outcome;
* `DecimalField` values are rationals, `IntegerField` values are integers and
  timestamps are natural numbers counting seconds.
-/

namespace SW

/-! ## Python string primitives -/

/-- Python `str.strip()`: remove leading and trailing whitespace. -/
def pyStrip (s : String) : String :=
  ⟨((s.data.dropWhile Char.isWhitespace).reverse.dropWhile Char.isWhitespace).reverse⟩

/-- Python `s.replace(" ", "").replace("-", "")`: drop every space and dash. -/
def stripSpacesDashes (s : String) : String :=
  ⟨s.data.filter (fun c => !(c == ' ' || c == '-'))⟩

/-- Python slicing `s[n:]` (the code only slices ASCII strings). -/
def pySliceFrom (s : String) (n : Nat) : String := ⟨s.data.drop n⟩

/-- Python `s.startswith(p)`. -/
def pyStartsWith (s p : String) : Bool := p.data.isPrefixOf s.data

/-- Python `s.isdigit()` (false on the empty string; the code only feeds it
ASCII input, where `isdigit` agrees with `Char.isDigit`). -/
def pyIsDigit (s : String) : Bool := !s.data.isEmpty && s.data.all Char.isDigit

/-- Python `s.lower()` on ASCII strings. -/
def pyLower (s : String) : String := ⟨s.data.map Char.toLower⟩

/-- Python truthiness of a string: the empty string is falsy. -/
def pyTruthyStr (s : String) : Bool := !s.data.isEmpty

/-! ## Identifier normalizer (api/serializers.py)

`UserRegistrationSerializer.validate_phone_number` (lines 69-108) and
`UserRegistrationSerializer.normalize_phone_number` (lines 184-201).
The login, reset-request and reset-confirm serializers repeat the same
`normalize_phone_number` body verbatim, so one Lean function embeds all of
them. -/

/-- `UserRegistrationSerializer.validate_phone_number`: accepts the
international shape `+233` + 9 digits (after dropping spaces/dashes) and the
local shape of 10 digits starting with `0` (after dropping spaces/dashes);
returns the raw value unchanged, or the message of the `ValidationError`. -/
def validate_phone_number (value : String) : Except String String :=
  if !pyTruthyStr value || !pyTruthyStr (pyStrip value) then
    .error "Phone number is required."
  else
    let original := pyStrip value
    if pyStartsWith original "+233" then
      let after_code := pySliceFrom original 4
      let digits_part := stripSpacesDashes after_code
      if !pyIsDigit digits_part || digits_part.data.length ≠ 9 then
        .error "Invalid international format. Please use +233 followed by exactly 9 digits (e.g., +233501234567)."
      else
        .ok value
    else
      let cleaned := stripSpacesDashes original
      if cleaned.data.length ≠ 10 then
        .error "Phone number must be exactly 10 digits. Please use format like 0501234567."
      else if !pyIsDigit cleaned then
        .error "Phone number contains invalid characters. Only numbers, spaces, and dashes are allowed."
      else if !pyStartsWith cleaned "0" then
        .error "Local phone number must start with 0. Please use format like 0501234567."
      else
        .ok value

/-- `normalize_phone_number` (identical bodies in the registration, login,
reset-request and reset-confirm serializers): `+233XXXXXXXXX ↦ 233XXXXXXXXX`,
`0XXXXXXXXX ↦ 233XXXXXXXXX`, anything else is returned cleaned. -/
def normalize_phone_number (phone_number : String) : String :=
  let original := pyStrip phone_number
  if pyStartsWith original "+233" then
    "233" ++ stripSpacesDashes (pySliceFrom original 4)
  else
    let cleaned := stripSpacesDashes original
    if pyStartsWith cleaned "0" then
      "233" ++ pySliceFrom cleaned 1
    else
      cleaned

/-- The nine significant digits of an accepted phone input: what stands after
the `+233` country code (international shape) or after the leading `0` (local
shape), spaces and dashes removed. -/
def significantDigits (phone_number : String) : String :=
  let original := pyStrip phone_number
  if pyStartsWith original "+233" then
    stripSpacesDashes (pySliceFrom original 4)
  else
    pySliceFrom (stripSpacesDashes original) 1

/-! ### String length helpers -/

theorem strLength_append (s t : String) : (s ++ t).length = s.length + t.length := by
  cases s; cases t; simp [String.length, String.instAppend, String.append]

theorem strLength_data (s : String) : s.length = s.data.length := rfl

theorem pySliceFrom_length (s : String) (n : Nat) :
    (pySliceFrom s n).length = s.length - n := by
  cases s; simp [pySliceFrom, String.length]

theorem exceptIsOk_error {ε α : Type} (e : ε) : (Except.error e : Except ε α).isOk = false := rfl

theorem pyIsDigit_drop (s : String) (n : Nat) (hn : n < s.data.length)
    (h : pyIsDigit s = true) : pyIsDigit (pySliceFrom s n) = true := by
  have hs : pyIsDigit (pySliceFrom s n)
      = (!(s.data.drop n).isEmpty && (s.data.drop n).all Char.isDigit) := rfl
  rw [hs]
  simp only [pyIsDigit, Bool.and_eq_true, Bool.not_eq_true',
    List.isEmpty_eq_false_iff_exists_mem, List.all_eq_true] at h ⊢
  constructor
  · have hlen : (s.data.drop n).length ≠ 0 := by
      rw [List.length_drop]; omega
    rcases List.exists_mem_of_length_pos (Nat.pos_of_ne_zero hlen) with ⟨x, hx⟩
    exact ⟨x, hx⟩
  · intro x hx
    exact h.2 x (List.drop_subset n s.data hx)

/-- C1. For every accepted phone input — international form `+233` followed by
exactly 9 digits after stripping spaces and dashes, or local form `0` followed
by 9 more digits (10 digits total) after stripping spaces and dashes —
`normalize_phone_number` returns the canonical 12-character string `233`
followed by the 9 significant digits; in particular both `+233501234567` and
`0501234567` normalize to `233501234567`. -/
theorem c1_normalize_phone_canonical (s : String)
    (h : (validate_phone_number s).isOk = true) :
    normalize_phone_number s = "233" ++ significantDigits s ∧
    (significantDigits s).length = 9 ∧
    pyIsDigit (significantDigits s) = true ∧
    (normalize_phone_number s).length = 12 ∧
    normalize_phone_number "+233501234567" = "233501234567" ∧
    normalize_phone_number "0501234567" = "233501234567" := by
  have hconcrete1 : normalize_phone_number "+233501234567" = "233501234567" := by decide
  have hconcrete2 : normalize_phone_number "0501234567" = "233501234567" := by decide
  unfold validate_phone_number at h
  split at h
  · rw [exceptIsOk_error] at h; exact absurd h (by simp)
  · next h0 =>
    dsimp only [] at h
    split at h
    · next hint =>
      split at h
      · rw [exceptIsOk_error] at h; exact absurd h (by simp)
      · next hbad =>
        simp only [Bool.or_eq_true, Bool.not_eq_true', decide_eq_true_eq, not_or,
          Bool.not_eq_false, not_not] at hbad
        obtain ⟨hdig, hlen⟩ := hbad
        refine ⟨?_, ?_, ?_, ?_, hconcrete1, hconcrete2⟩
        · simp [normalize_phone_number, significantDigits, hint]
        · simp [significantDigits, hint, strLength_data, hlen]
        · simpa [significantDigits, hint] using hdig
        · have hn : normalize_phone_number s = "233" ++ significantDigits s := by
            simp [normalize_phone_number, significantDigits, hint]
          have h9 : (significantDigits s).length = 9 := by
            simp [significantDigits, hint, strLength_data, hlen]
          rw [hn, strLength_append, h9]; rfl
    · next hint =>
      split at h
      · rw [exceptIsOk_error] at h; exact absurd h (by simp)
      · next hl =>
        push_neg at hl
        split at h
        · rw [exceptIsOk_error] at h; exact absurd h (by simp)
        · next hd =>
          simp only [Bool.not_eq_true', Bool.not_eq_false] at hd
          split at h
          · rw [exceptIsOk_error] at h; exact absurd h (by simp)
          · next hz =>
            simp only [Bool.not_eq_true', Bool.not_eq_false] at hz
            have hnorm : normalize_phone_number s =
                "233" ++ pySliceFrom (stripSpacesDashes (pyStrip s)) 1 := by
              simp [normalize_phone_number, hint, hz]
            have hsig : significantDigits s = pySliceFrom (stripSpacesDashes (pyStrip s)) 1 := by
              simp [significantDigits, hint]
            have hsiglen : (significantDigits s).length = 9 := by
              rw [hsig, pySliceFrom_length, strLength_data, hl]
            refine ⟨by rw [hnorm, hsig], hsiglen, ?_, ?_, hconcrete1, hconcrete2⟩
            · rw [hsig]
              exact pyIsDigit_drop _ 1 (by omega) hd
            · rw [hnorm, strLength_append]
              have h9 : (pySliceFrom (stripSpacesDashes (pyStrip s)) 1).length = 9 := by
                rw [pySliceFrom_length, strLength_data, hl]
              rw [h9]; rfl

/-- Witness for C1 at the two inputs named by the specification. -/
theorem c1_normalize_phone_canonical_witness :
    (validate_phone_number "0501234567").isOk = true ∧
    normalize_phone_number "0501234567" = "233" ++ significantDigits "0501234567" ∧
    (validate_phone_number "+233501234567").isOk = true ∧
    (normalize_phone_number "+233501234567").length = 12 :=
  ⟨by decide, (c1_normalize_phone_canonical "0501234567" (by decide)).1,
   by decide, (c1_normalize_phone_canonical "+233501234567" (by decide)).2.2.2.1⟩

/-! ## Account store (api/models.py and the framework user table)

Rows carry the fields the embedded code reads or writes; timestamps count
seconds. The stored credential is modelled as the raw password: the salted
hash that `make_password` / `set_password` apply is an injection the code
never inspects, so the embedding takes the hash to be the identity and
`check_password` to be string equality. -/

/-- A row of the framework-managed user table (`django.contrib.auth.models.User`,
the model `get_user_model()` returns: the project defines no custom user model). -/
structure User where
  id : Nat
  username : String
  email : String
  password : String
  first_name : String
  last_name : String
  is_active : Bool
deriving Repr, DecidableEq

/-- A row of the `user_profiles` table (`api/models.py`, `UserProfile`). -/
structure UserProfile where
  id : Nat
  user_id : Nat
  phone_number : String
  normalized_phone : String
deriving Repr, DecidableEq

/-- A row of the `password_resets` table (`api/models.py`, `PasswordReset`).
The `phone_number` column stores the reset identifier: a normalized phone or,
for email resets, the email itself (serializers.py lines 487-497). -/
structure PasswordReset where
  id : Nat
  user_id : Nat
  reset_code : String
  phone_number : String
  is_used : Bool
  created_at : Nat
  expires_at : Nat
  used_at : Option Nat
deriving Repr, DecidableEq

/-- `timedelta(minutes=15)` in seconds. -/
def fifteenMinutes : Nat := 15 * 60

/-- `PasswordReset.save` on a fresh row (api/models.py lines 50-59):
`created_at` is `auto_now_add` and `expires_at`, unset on creation, becomes
`timezone.now() + timedelta(minutes=15)`. The 6-digit code is drawn by
`generate_reset_code`; the embedding takes it as a parameter to stay
deterministic. -/
def passwordResetCreate (rid uid : Nat) (code identifier : String) (now : Nat) :
    PasswordReset :=
  { id := rid, user_id := uid, reset_code := code, phone_number := identifier,
    is_used := false, created_at := now, expires_at := now + fifteenMinutes,
    used_at := none }

/-- `PasswordReset.is_expired` (api/models.py lines 66-68):
`timezone.now() > self.expires_at`. -/
def PasswordReset.is_expired (r : PasswordReset) (now : Nat) : Bool :=
  now > r.expires_at

/-- `PasswordReset.is_valid` (api/models.py lines 70-72):
`not self.is_used and not self.is_expired()`. -/
def PasswordReset.is_valid (r : PasswordReset) (now : Nat) : Bool :=
  !r.is_used && !(r.is_expired now)

/-- `PasswordReset.mark_as_used` (api/models.py lines 74-78). -/
def PasswordReset.mark_as_used (r : PasswordReset) (now : Nat) : PasswordReset :=
  { r with is_used := true, used_at := some now }

/-- The relational state the auth endpoints read and write. -/
structure AuthStore where
  users : List User
  profiles : List UserProfile
  resets : List PasswordReset
deriving Repr, DecidableEq

/-- The two ways a Django `Model.objects.get(...)` call fails. -/
inductive OrmError where
  | doesNotExist
  | multipleObjectsReturned
deriving Repr, DecidableEq

/-- `Model.objects.get(...)`: `DoesNotExist` with no matching row, the row
itself with exactly one, `MultipleObjectsReturned` with several. -/
def pyGet {α : Type} (rows : List α) (p : α → Bool) : Except OrmError α :=
  match rows.filter p with
  | [] => .error .doesNotExist
  | [x] => .ok x
  | _ :: _ :: _ => .error .multipleObjectsReturned

theorem pyGet_ok_filter {α : Type} {rows : List α} {p : α → Bool} {x : α}
    (h : pyGet rows p = .ok x) : rows.filter p = [x] := by
  unfold pyGet at h
  split at h
  · exact absurd h (by simp)
  · next heq => injection h with h; rw [heq, h]
  · exact absurd h (by simp)

theorem pyGet_doesNotExist {α : Type} {rows : List α} {p : α → Bool}
    (h : pyGet rows p = .error .doesNotExist) : rows.filter p = [] := by
  unfold pyGet at h
  split at h
  · next heq => exact heq
  · exact absurd h (by simp)
  · injection h with h; exact absurd h (by simp)

theorem pyGet_multiple_length {α : Type} {rows : List α} {p : α → Bool}
    (h : pyGet rows p = .error .multipleObjectsReturned) :
    2 ≤ (rows.filter p).length := by
  unfold pyGet at h
  split at h
  · injection h with h; exact absurd h (by simp)
  · exact absurd h (by simp)
  · next heq => rw [heq]; simp

/-- `validate_password_strength` (api/utils.py): at least 8 characters, one
ASCII uppercase letter (`re.search r[A-Z]`) and one ASCII lowercase letter. -/
def validate_password_strength (value : String) : Except String String :=
  if value.data.length < 8 then
    .error "Password must be at least 8 characters long"
  else if !value.data.any Char.isUpper then
    .error "Password must contain at least one uppercase letter"
  else if !value.data.any Char.isLower then
    .error "Password must contain at least one lowercase letter"
  else
    .ok value

/-- The serializers classify an identifier as an email by
`'@' in identifier` (serializers.py lines 413-417 and 510-514). -/
def is_email (identifier : String) : Bool := identifier.data.contains '@'

/-! ## Login (api/serializers.py, UserLoginSerializer) -/

/-- Outcome of `UserLoginSerializer.is_valid` plus the view: `failure` carries
the field key and message of the `ValidationError`; `serverError` stands for
an exception DRF does not convert to a 400. -/
inductive LoginOutcome where
  | success (user : User)
  | failure (field msg : String)
  | serverError
deriving Repr, DecidableEq

/-- `UserLoginSerializer.validate_phone_number` (lines 276-314): blank values
pass through, non-blank ones must match one of the two accepted shapes. -/
def login_validate_phone_number (value : String) : Except String String :=
  if !pyTruthyStr value || !pyTruthyStr (pyStrip value) then
    .ok value
  else
    let original := pyStrip value
    if pyStartsWith original "+233" then
      let after_code := pySliceFrom original 4
      let digits_part := stripSpacesDashes after_code
      if !pyIsDigit digits_part || digits_part.data.length ≠ 9 then
        .error "Invalid phone number format. (e.g., +223565435654)."
      else
        .ok value
    else
      let cleaned := stripSpacesDashes original
      if cleaned.data.length ≠ 10 then
        .error "Phone number must be exactly 10 digits."
      else if !pyIsDigit cleaned then
        .error "Phone number contains invalid characters. Only numbers, spaces and dashes are allowed."
      else if !pyStartsWith cleaned "0" then
        .error "Phone number must start with 0. Please use the format like 02345465332"
      else
        .ok value

/-- `UserLoginSerializer.validate` lines 385-393, inner phone lookup. After
`User.objects.get(username=normalized_phone)` raises `DoesNotExist`, the code
runs `profile = User.objects.get(normalized_phone=normalized_phone)`. The
auth `User` model has no `normalized_phone` field — that column lives on the
separate `UserProfile` table (api/models.py line 13) — so Django raises
`FieldError` before reading any row; the surrounding
`except (Exception, User.DoesNotExist)` catches it (as it catches
`MultipleObjectsReturned` from the first lookup) and turns it into the
not-found `ValidationError`. Note also that the result of the profile lookup
is bound to `profile`, not `user`, so even a successful lookup would leave
`user` unset. -/
def loginPhoneLookup (store : AuthStore) (normalized : String) :
    Except (String × String) User :=
  match pyGet store.users (fun u => u.username == normalized) with
  | .ok u => .ok u
  | .error _ =>
      .error ("phone_number", "No account found with this phone number.")

/-- The tail of `UserLoginSerializer.validate` (lines 395-407): the password
check (note the source keys the incorrect-password error under `" Password"`,
with a leading space) and the active-account check. -/
def loginPasswordAndActiveChecks (user : User) (password : String) : LoginOutcome :=
  if !(user.password == password) then
    .failure " Password" "Incorrect password."
  else if !user.is_active then
    .failure "non_field_errors" "Account is disabled."
  else
    .success user

/-- `UserLoginSerializer` end to end: the field validators
(`validate_email` lower-strips non-blank values, `validate_phone_number`
checks the shape) followed by `validate` (lines 346-407). The `EmailField`
format check is framework machinery the claims do not touch and is not
modelled. -/
def user_login (store : AuthStore) (emailIn phoneIn : Option String)
    (password : String) : LoginOutcome :=
  match login_validate_phone_number (phoneIn.getD "") with
  | .error m => .failure "phone_number" m
  | .ok _ =>
    let emailField := match emailIn with
      | none => ""
      | some v => if pyTruthyStr v && pyTruthyStr (pyStrip v) then pyLower (pyStrip v) else v
    let email := if pyTruthyStr emailField then pyStrip emailField else ""
    let phone := match phoneIn with
      | none => ""
      | some v => if pyTruthyStr v then pyStrip v else ""
    if !pyTruthyStr email && !pyTruthyStr phone then
      .failure "non_field_errors" "Please provide either email or phone number to log in"
    else if pyTruthyStr email && pyTruthyStr phone then
      .failure "non_field_errors" "Please use either email or phone number, not both."
    else if !pyTruthyStr password then
      .failure "password" "Password is required"
    else if pyTruthyStr email then
      match pyGet store.users (fun u => u.email == email) with
      | .error .doesNotExist =>
          .failure "email" "No account found with this email address."
      | .error .multipleObjectsReturned =>
          -- `User.objects.get(email=email)` with several rows raises
          -- MultipleObjectsReturned, which this serializer does not catch
          .serverError
      | .ok user => loginPasswordAndActiveChecks user password
    else
      match loginPhoneLookup store (normalize_phone_number phone) with
      | .error (f, m) => .failure f m
      | .ok user => loginPasswordAndActiveChecks user password

/-! ## Registration (api/serializers.py, UserRegistrationSerializer) -/

/-- The body of a registration request (all fields are `CharField`s of the
serializer; `username` is optional). -/
structure RegInput where
  username : Option String
  email : String
  phone_number : String
  password : String
  confirm_password : String
  full_name : String
deriving Repr, DecidableEq

/-- The uncaught exception classes the embedding distinguishes. `fieldError`
is Django `FieldError`, raised when a queryset names a field the model does
not have. -/
inductive PyExc where
  | fieldError
deriving Repr, DecidableEq

/-- Outcome of `UserRegistrationSerializer.is_valid` plus the view:
`fieldErrors` is the 400 response with its per-field messages, `serverError`
an exception neither the serializer nor the view catches (a 500; no row is
written). -/
inductive RegOutcome where
  | created (store : AuthStore) (user : User)
  | fieldErrors (errs : List (String × String))
  | serverError (e : PyExc)
deriving Repr, DecidableEq

/-- The per-field validators of `UserRegistrationSerializer`
(lines 69-150), collected the way DRF `to_internal_value` collects them: one
(field, message) entry per failing field. When this list is non-empty,
`is_valid` returns the field errors and the cross-field `validate` never runs. -/
def userRegisterFieldErrors (store : AuthStore) (inp : RegInput) :
    List (String × String) :=
  (match validate_phone_number inp.phone_number with
   | .error m => [("phone_number", m)]
   | .ok _ => []) ++
  (match inp.username with
   | none => []
   | some v =>
     if pyTruthyStr v && pyTruthyStr (pyStrip v) then
       if (pyStrip v).data.length < 3 then
         [("username", "Username must be at least 3 characters long.")]
       else if store.users.any (fun u => u.username == pyStrip v) then
         [("username", "This username is already taken. Please choose a different username.")]
       else []
     else []) ++
  (if !pyTruthyStr inp.email || !pyTruthyStr (pyStrip inp.email) then
     [("email", "Email address is required.")]
   else if store.users.any (fun u => u.email == pyLower (pyStrip inp.email)) then
     [("email", "An account with this email address already exists. Please use a different email or try logging in.")]
   else []) ++
  (if !pyTruthyStr inp.full_name || !pyTruthyStr (pyStrip inp.full_name) then
     [("full_name", "Full name is required.")]
   else if (pyStrip inp.full_name).data.length < 2 then
     [("full_name", "Full name must be at least 2 characters long.")]
   else []) ++
  (match validate_password_strength inp.password with
   | .error m => [("password", m)]
   | .ok _ => []) ++
  (if !pyTruthyStr inp.confirm_password then
     [("confirm_password", "Password confirmation is required.")]
   else [])

/-- `UserRegistrationSerializer.validate` (lines 152-182) and the register
view. After the field validators pass, the cross-field `validate` runs inside
`try: ... except serializers.ValidationError`. It first builds an `errors`
dict (password mismatch, then the phone-as-username duplicate check); the next
statement, `User.objects.filter(normalized_phone=normalized_phone)` (line
173), raises `FieldError` — the auth `User` model has no `normalized_phone`
field (it lives on `UserProfile`, api/models.py line 13) — and that exception
is not a `serializers.ValidationError`, so it escapes `validate`,
`serializer.is_valid()` and the view: every registration whose fields
validate ends in an uncaught `FieldError`, the `errors` dict is discarded and
`create` is never reached. -/
def user_register (store : AuthStore) (inp : RegInput) : RegOutcome :=
  let fe := userRegisterFieldErrors store inp
  if !fe.isEmpty then
    .fieldErrors fe
  else
    let _errors0 : List (String × String) :=
      if !(inp.password == inp.confirm_password) then
        [("confirm_password", "Passwords don't match. Please make sure both password fields are identical.")]
      else []
    -- phone_number is non-blank here (its validator already passed)
    let normalized := normalize_phone_number inp.phone_number
    let _errors1 : List (String × String) :=
      _errors0 ++
        (if store.users.any (fun u => u.username == normalized) then
          [("phone_number", "This phone number is already registered. Please use a different number or try logging in.")]
        else [])
    -- User.objects.filter(normalized_phone=normalized_phone).exists()  → FieldError
    .serverError .fieldError

/-! ## Password-reset confirm (api/serializers.py, PasswordResetConfirmSerializer) -/

/-- The body of a reset-confirm request. -/
structure ConfirmInput where
  reset_identifier : String
  reset_code : String
  new_password : String
  confirm_password : String
deriving Repr, DecidableEq

/-- The value the confirm serializer looks the reset row up by
(lines 568-579): the stripped identifier lowered when it is an email,
normalized when it is a phone. -/
def confirmLookupValue (inp : ConfirmInput) : String :=
  let rid := pyStrip inp.reset_identifier
  if is_email rid then pyLower rid else normalize_phone_number rid

/-- The field-level error dict the confirm `validate` accumulates before the
row lookup (lines 539-566): required fields, password match, password
strength. -/
def confirmFieldErrors (inp : ConfirmInput) : List (String × String) :=
  (if !pyTruthyStr (pyStrip inp.reset_identifier) then
     [("reset_identifier", "Email or phone number is required.")]
   else []) ++
  (if !pyTruthyStr (pyStrip inp.reset_code) then
     [("reset_code", "Reset code is required.")]
   else []) ++
  (if !pyTruthyStr inp.new_password then
     [("new_password", "New password is required.")]
   else []) ++
  (if !pyTruthyStr inp.confirm_password then
     [("confirm_password", "Password confirmation is required.")]
   else []) ++
  (if pyTruthyStr inp.new_password && pyTruthyStr inp.confirm_password &&
      !(inp.new_password == inp.confirm_password) then
     [("confirm_password", "Passwords don't match. Please make sure both password fields are identical.")]
   else []) ++
  (if pyTruthyStr inp.new_password then
     match validate_password_strength inp.new_password with
     | .error m => [("new_password", m)]
     | .ok _ => []
   else [])

/-- The row filter of the confirm lookup (lines 581-586):
`PasswordReset.objects.get(phone_number=lookup, reset_code=code, is_used=False)`. -/
def resetMatches (lookup code : String) (r : PasswordReset) : Bool :=
  r.phone_number == lookup && r.reset_code == code && r.is_used == false

/-- First half of `PasswordResetConfirmSerializer.save` (lines 607-610):
`user.set_password(new_password); user.save()`. -/
def confirmApplyPassword (store : AuthStore) (uid : Nat) (new_password : String) :
    AuthStore :=
  { store with
    users := store.users.map fun u =>
      if u.id == uid then { u with password := new_password } else u }

/-- Second half of `PasswordResetConfirmSerializer.save` (line 613):
`reset_obj.mark_as_used()`. -/
def confirmMarkUsed (store : AuthStore) (rid : Nat) (now : Nat) : AuthStore :=
  { store with
    resets := store.resets.map fun r =>
      if r.id == rid then r.mark_as_used now else r }

/-- The states the two-statement body of `save` passes through. The method
wraps the two ORM writes in no transaction (`transaction.atomic` appears
nowhere in the file), and Django runs in autocommit, so each state in this
list is committed once reached: if execution stops after the first write, the
middle state persists. -/
def confirmSaveIntermediates (store : AuthStore) (uid rid : Nat)
    (new_password : String) (now : Nat) : List AuthStore :=
  [store,
   confirmApplyPassword store uid new_password,
   confirmMarkUsed (confirmApplyPassword store uid new_password) rid now]

/-- Outcome of the confirm endpoint. -/
inductive ConfirmOutcome where
  | success (store : AuthStore) (user_id : Nat)
  | failure (errs : List (String × String))
  | serverError
deriving Repr, DecidableEq

def invalidResetMsg : String :=
  "Invalid or expired reset code. Please request a new password reset."

def expiredResetMsg : String :=
  "This reset code has expired. Please request a new password reset."

/-- `PasswordResetConfirmSerializer.validate` (lines 530-598) followed by
`save` (lines 600-615), as the view drives them. -/
def password_reset_confirm (store : AuthStore) (inp : ConfirmInput) (now : Nat) :
    ConfirmOutcome :=
  let errs := confirmFieldErrors inp
  if !errs.isEmpty then
    .failure errs
  else
    let lookup := confirmLookupValue inp
    let code := pyStrip inp.reset_code
    match pyGet store.resets (resetMatches lookup code) with
    | .error .doesNotExist => .failure [("non_field_errors", invalidResetMsg)]
    | .error .multipleObjectsReturned => .serverError
    | .ok reset =>
      if reset.is_expired now then
        .failure [("non_field_errors", expiredResetMsg)]
      else
        .success
          (confirmMarkUsed (confirmApplyPassword store reset.user_id inp.new_password)
            reset.id now)
          reset.user_id

/-- The password column of user `uid`, if the row exists. -/
def userPassword (store : AuthStore) (uid : Nat) : Option String :=
  (store.users.find? (fun u => u.id == uid)).map (fun u => u.password)

/-- The `is_used` column of reset row `rid`, if the row exists. -/
def resetIsUsed (store : AuthStore) (rid : Nat) : Option Bool :=
  (store.resets.find? (fun r => r.id == rid)).map (fun r => r.is_used)

/-! ## Concrete stores used to evaluate the buggy lookup paths -/

/-- A user whose username is not their phone but whose profile carries the
normalized phone — the account shape the profile-lookup fallback exists for. -/
def profileUser : User :=
  { id := 1, username := "alice", email := "alice@example.com",
    password := "Secret1A", first_name := "Alice", last_name := "Mensah",
    is_active := true }

def profileRow : UserProfile :=
  { id := 1, user_id := 1, phone_number := "0501234567",
    normalized_phone := "233501234567" }

def profileStore : AuthStore :=
  { users := [profileUser], profiles := [profileRow], resets := [] }

/-- A legacy user whose username is the normalized phone itself. -/
def legacyUser : User :=
  { id := 2, username := "233501234567", email := "legacy@example.com",
    password := "Secret1A", first_name := "Kofi", last_name := "Boateng",
    is_active := true }

def legacyStore : AuthStore :=
  { users := [legacyUser], profiles := [], resets := [] }

/-- C4. The claim says that when the username-as-phone lookup finds nothing,
the account is resolved through the profile field, so a user whose profile
stores the normalized phone but whose username differs can log in by phone.
The code contradicts this: the fallback queries `normalized_phone` on the
auth `User` model, which has no such field, so `FieldError` is raised,
swallowed by the blanket `except`, and login answers the not-found error even
for an active account with the right password and a matching profile row. The
legacy username-as-phone path (the claim resolution order first step) does
work, as the second conjunct shows. -/
theorem c4_phone_login_profile_lookup_broken :
    user_login profileStore none (some "0501234567") "Secret1A" =
      .failure "phone_number" "No account found with this phone number." ∧
    (profileStore.profiles.any fun p =>
      p.normalized_phone == normalize_phone_number "0501234567" &&
      p.user_id == profileUser.id) = true ∧
    profileUser.is_active = true ∧
    (profileUser.password == "Secret1A") = true ∧
    user_login legacyStore none (some "0501234567") "Secret1A" =
      .success legacyUser := by
  refine ⟨by decide, by decide, by decide, by decide, by decide⟩

/-- The store a second registration with the same phone runs against: the
first registration stored the normalized phone as the username. -/
def dupPhoneStore : AuthStore := legacyStore

/-- A well-formed second registration using the other raw phone form. -/
def dupPhoneInput : RegInput :=
  { username := none, email := "new@example.com", phone_number := "0501234567",
    password := "Abcdef12", confirm_password := "Abcdef12",
    full_name := "Jane Doe" }

/-- C5. The claim says a second registration with the same normalized phone
fails with a field-keyed uniqueness error on `phone_number`. The code never
gets there: once the field validators pass, the cross-field `validate`
reaches `User.objects.filter(normalized_phone=...)` (serializers.py line
173), which raises `FieldError` because the auth `User` model has no
`normalized_phone` field, and the `except serializers.ValidationError` clause
does not catch it — an unhandled 500, the accumulated `phone_number` error
dict discarded. (No write happens, but for the wrong reason: every
registration with validating fields, duplicate or not, dies the same way.) -/
theorem c5_register_duplicate_phone_uncaught_fielderror
    (store : AuthStore) (inp : RegInput)
    (h : userRegisterFieldErrors store inp = []) :
    user_register store inp = .serverError .fieldError ∧
    user_register dupPhoneStore dupPhoneInput = .serverError .fieldError ∧
    (dupPhoneStore.users.any fun u =>
      u.username == normalize_phone_number dupPhoneInput.phone_number) = true ∧
    userRegisterFieldErrors dupPhoneStore dupPhoneInput = [] := by
  refine ⟨?_, by decide, by decide, by decide⟩
  unfold user_register
  rw [h]
  rfl

/-- Witness for C5 at a concrete store and input. -/
theorem c5_register_duplicate_phone_uncaught_fielderror_witness :
    userRegisterFieldErrors dupPhoneStore dupPhoneInput = [] ∧
    user_register dupPhoneStore dupPhoneInput = .serverError .fieldError :=
  ⟨by decide,
   (c5_register_duplicate_phone_uncaught_fielderror dupPhoneStore dupPhoneInput
     (by decide)).1⟩

/-! ## C3: atomicity of the reset-confirm save -/

theorem find?_map_pres {α : Type} (l : List α) (q : α → Bool) (f : α → α)
    (hf : ∀ a, q (f a) = q a) :
    (l.map f).find? q = (l.find? q).map f := by
  induction l with
  | nil => rfl
  | cons a t ih =>
    rw [List.map_cons, List.find?_cons, List.find?_cons, hf a]
    cases hq : q a
    · exact ih
    · rfl

/-- The store the atomicity counterexample runs on: one user, one fresh
unused reset row for that user. -/
def atomUser : User :=
  { id := 1, username := "233501234567", email := "jane@example.com",
    password := "OldPass1A", first_name := "Jane", last_name := "Doe",
    is_active := true }

def atomReset : PasswordReset :=
  passwordResetCreate 7 1 "123456" "233501234567" 1000

def atomStore : AuthStore :=
  { users := [atomUser], profiles := [], resets := [atomReset] }

/-- Counterexample to C3 as stated. The claim says no reachable state has the
password changed while the reset row still shows unused; the state after the
first of the two saves (password written, `mark_as_used` not yet run) is in
the list of states the un-wrapped save body passes through, and there the
password differs from the original while the row still reads unused. -/
theorem c3_confirm_atomicity_counterexample :
    ¬ (∀ s ∈ confirmSaveIntermediates atomStore 1 7 "NewPass2B" 1100,
        userPassword s 1 ≠ userPassword atomStore 1 → resetIsUsed s 7 = some true) := by
  intro hall
  have hmid := hall (confirmApplyPassword atomStore 1 "NewPass2B")
    (by decide) (by decide)
  exact absurd hmid (by decide)

/-- C3 amended: the confirm save runs the credential update and then the
row-mutation as two separate commits with no enclosing transaction. When both
run, the final state carries both changes (first conjunct); but the
intermediate state after the credential update alone is among the states the
body passes through, and there the password has already changed while the
reset row still shows unused (remaining conjuncts). -/
theorem c3_confirm_save_sequential (store : AuthStore) (uid rid : Nat)
    (pw : String) (now : Nat)
    (u : User) (hu : store.users.find? (fun x => x.id == uid) = some u)
    (r : PasswordReset) (hr : store.resets.find? (fun x => x.id == rid) = some r)
    (hunused : r.is_used = false) (hpw : u.password ≠ pw) :
    (userPassword (confirmMarkUsed (confirmApplyPassword store uid pw) rid now) uid
        = some pw ∧
     resetIsUsed (confirmMarkUsed (confirmApplyPassword store uid pw) rid now) rid
        = some true) ∧
    confirmApplyPassword store uid pw ∈ confirmSaveIntermediates store uid rid pw now ∧
    userPassword (confirmApplyPassword store uid pw) uid = some pw ∧
    userPassword (confirmApplyPassword store uid pw) uid ≠ userPassword store uid ∧
    resetIsUsed (confirmApplyPassword store uid pw) rid = some false := by
  have hqu : (List.find? (fun x => x.id == uid)
      (store.users.map fun x => if x.id == uid then { x with password := pw } else x))
      = some { u with password := pw } := by
    rw [find?_map_pres store.users (fun x => x.id == uid)
      (fun x => if x.id == uid then { x with password := pw } else x)
      (by intro a; by_cases hc : (a.id == uid) = true <;> simp [hc])]
    rw [hu]
    have hid : (u.id == uid) = true := by
      have h0 := List.find?_some hu
      simpa using h0
    simp [hid]
    intro hne
    exact absurd (by simpa using hid) hne
  have hmidpw : userPassword (confirmApplyPassword store uid pw) uid = some pw := by
    unfold userPassword confirmApplyPassword
    dsimp only
    rw [hqu]
    rfl
  have hmidreset : resetIsUsed (confirmApplyPassword store uid pw) rid = some false := by
    unfold resetIsUsed confirmApplyPassword
    dsimp only
    rw [hr]
    simp [hunused]
  have hqr : (List.find? (fun x => x.id == rid)
      (store.resets.map fun x => if x.id == rid then x.mark_as_used now else x))
      = some (r.mark_as_used now) := by
    rw [find?_map_pres store.resets (fun x => x.id == rid)
      (fun x => if x.id == rid then x.mark_as_used now else x)
      (by intro a; by_cases hc : (a.id == rid) = true <;>
        simp [hc, PasswordReset.mark_as_used])]
    rw [hr]
    have hid : (r.id == rid) = true := by
      have h0 := List.find?_some hr
      simpa using h0
    simp [hid]
    intro hne
    exact absurd (by simpa using hid) hne
  refine ⟨⟨?_, ?_⟩, ?_, hmidpw, ?_, hmidreset⟩
  · unfold confirmMarkUsed
    unfold userPassword at hmidpw ⊢
    exact hmidpw
  · unfold resetIsUsed confirmMarkUsed confirmApplyPassword
    dsimp only
    rw [hqr]
    rfl
  · simp [confirmSaveIntermediates]
  · rw [hmidpw]
    unfold userPassword
    rw [hu]
    intro hcon
    injection hcon with hcon
    exact hpw hcon.symm

/-- Witness for the amended C3 theorem at the concrete store. -/
theorem c3_confirm_save_sequential_witness :
    userPassword (confirmApplyPassword atomStore 1 "NewPass2B") 1 = some "NewPass2B" ∧
    resetIsUsed (confirmApplyPassword atomStore 1 "NewPass2B") 7 = some false ∧
    resetIsUsed (confirmMarkUsed (confirmApplyPassword atomStore 1 "NewPass2B") 7 1100) 7
      = some true := by
  have h := c3_confirm_save_sequential atomStore 1 7 "NewPass2B" 1100
    atomUser (by decide) atomReset (by decide) (by decide) (by decide)
  exact ⟨h.2.2.1, h.2.2.2.2, h.1.2⟩

/-! ## C2: reset-code validity window and single use -/

/-- C2. A reset code is valid iff it is unused and now is at or before
`created_at` + 15 minutes (first two conjuncts, the second being the boundary
instant `now = expires_at`); a confirm whose matching rows are all used or
expired never succeeds, and (when the row is unique and the field checks
pass) answers one of the two invalid-or-expired messages (third conjunct);
and after one successful confirm, no later confirm presenting the same
identifier and code can succeed (fourth conjunct). -/
theorem c2_reset_validity_and_single_use
    (r : PasswordReset) (now : Nat) (store : AuthStore) (inp inp2 : ConfirmInput)
    (now1 now2 : Nat) :
    (r.expires_at = r.created_at + fifteenMinutes →
      (r.is_valid now = true ↔ (r.is_used = false ∧ now ≤ r.created_at + fifteenMinutes))) ∧
    (r.is_used = false → r.is_valid r.expires_at = true) ∧
    ((∀ m ∈ store.resets, m.phone_number = confirmLookupValue inp →
        m.reset_code = pyStrip inp.reset_code →
        m.is_used = true ∨ m.is_expired now1 = true) →
      (∀ s1 uid, password_reset_confirm store inp now1 ≠ .success s1 uid) ∧
      ((store.resets.filter
          (resetMatches (confirmLookupValue inp) (pyStrip inp.reset_code))).length ≤ 1 →
        confirmFieldErrors inp = [] →
        password_reset_confirm store inp now1
            = .failure [("non_field_errors", invalidResetMsg)] ∨
        password_reset_confirm store inp now1
            = .failure [("non_field_errors", expiredResetMsg)])) ∧
    (∀ s1 uid1, password_reset_confirm store inp now1 = .success s1 uid1 →
      confirmLookupValue inp2 = confirmLookupValue inp →
      pyStrip inp2.reset_code = pyStrip inp.reset_code →
      ∀ s2 uid2, password_reset_confirm s1 inp2 now2 ≠ .success s2 uid2) := by
  refine ⟨?_, ?_, ?_, ?_⟩
  · intro hexp
    unfold PasswordReset.is_valid PasswordReset.is_expired
    rw [hexp]
    cases hb : r.is_used
    · simp [Nat.not_lt]
    · simp
  · intro hb
    unfold PasswordReset.is_valid PasswordReset.is_expired
    simp [hb]
  · intro hall
    constructor
    · intro s1 uid hcon
      unfold password_reset_confirm at hcon
      dsimp only [] at hcon
      split at hcon
      · exact absurd hcon (by simp)
      · cases heq : pyGet store.resets
            (resetMatches (confirmLookupValue inp) (pyStrip inp.reset_code)) with
        | error e =>
          rw [heq] at hcon
          cases e <;> exact absurd hcon (by simp)
        | ok reset =>
          rw [heq] at hcon
          dsimp only [] at hcon
          have hfil := pyGet_ok_filter heq
          have hmem : reset ∈ store.resets.filter
              (resetMatches (confirmLookupValue inp) (pyStrip inp.reset_code)) := by
            rw [hfil]; exact List.mem_singleton.mpr rfl
          have hmem' := List.mem_filter.mp hmem
          have hmatch := hmem'.2
          simp only [resetMatches, Bool.and_eq_true, beq_iff_eq] at hmatch
          have hexp : reset.is_expired now1 = true := by
            rcases hall reset hmem'.1 hmatch.1.1 hmatch.1.2 with hused | hexp
            · rw [hmatch.2] at hused; exact absurd hused (by simp)
            · exact hexp
          rw [if_pos hexp] at hcon
          exact absurd hcon (by simp)
    · intro hlen hfe
      cases heq : pyGet store.resets
          (resetMatches (confirmLookupValue inp) (pyStrip inp.reset_code)) with
      | error e =>
        cases e with
        | doesNotExist =>
          left
          unfold password_reset_confirm
          dsimp only []
          rw [hfe, heq]
          rfl
        | multipleObjectsReturned =>
          have := pyGet_multiple_length heq
          omega
      | ok reset =>
        have hfil := pyGet_ok_filter heq
        have hmem : reset ∈ store.resets.filter
            (resetMatches (confirmLookupValue inp) (pyStrip inp.reset_code)) := by
          rw [hfil]; exact List.mem_singleton.mpr rfl
        have hmem' := List.mem_filter.mp hmem
        have hmatch := hmem'.2
        simp only [resetMatches, Bool.and_eq_true, beq_iff_eq] at hmatch
        have hexp : reset.is_expired now1 = true := by
          rcases hall reset hmem'.1 hmatch.1.1 hmatch.1.2 with hused | hexp
          · rw [hmatch.2] at hused; exact absurd hused (by simp)
          · exact hexp
        right
        unfold password_reset_confirm
        dsimp only []
        rw [hfe, heq]
        dsimp only []
        rw [if_pos hexp]
        rfl
  · intro s1 uid1 hsucc hlv hcode s2 uid2 hcon
    unfold password_reset_confirm at hsucc
    dsimp only [] at hsucc
    split at hsucc
    · exact absurd hsucc (by simp)
    · cases heq : pyGet store.resets
          (resetMatches (confirmLookupValue inp) (pyStrip inp.reset_code)) with
      | error e =>
        rw [heq] at hsucc
        cases e <;> exact absurd hsucc (by simp)
      | ok reset =>
        rw [heq] at hsucc
        dsimp only [] at hsucc
        split at hsucc
        · exact absurd hsucc (by simp)
        · have hs1 : s1 = confirmMarkUsed
              (confirmApplyPassword store reset.user_id inp.new_password)
              reset.id now1 := by
            cases hsucc; rfl
          have hfil := pyGet_ok_filter heq
          unfold password_reset_confirm at hcon
          dsimp only [] at hcon
          split at hcon
          · exact absurd hcon (by simp)
          · rw [hlv, hcode] at hcon
            cases heq2 : pyGet s1.resets
                (resetMatches (confirmLookupValue inp) (pyStrip inp.reset_code)) with
            | error e =>
              rw [heq2] at hcon
              cases e <;> exact absurd hcon (by simp)
            | ok reset2 =>
              have hfil2 := pyGet_ok_filter heq2
              have hnil : s1.resets.filter
                  (resetMatches (confirmLookupValue inp) (pyStrip inp.reset_code)) = [] := by
                rw [List.filter_eq_nil_iff]
                intro m hm
                rw [hs1] at hm
                unfold confirmMarkUsed confirmApplyPassword at hm
                dsimp only [] at hm
                rcases List.mem_map.mp hm with ⟨x, hx, rfl⟩
                by_cases hid : (x.id == reset.id) = true
                · rw [if_pos hid]
                  simp [resetMatches, PasswordReset.mark_as_used]
                · rw [if_neg hid]
                  intro hpx
                  have hxin : x ∈ store.resets.filter
                      (resetMatches (confirmLookupValue inp) (pyStrip inp.reset_code)) :=
                    List.mem_filter.mpr ⟨hx, hpx⟩
                  rw [hfil] at hxin
                  have hxr : x = reset := List.mem_singleton.mp hxin
                  rw [hxr] at hid
                  exact hid (by simp)
              rw [hnil] at hfil2
              exact absurd hfil2 (by simp)

/-- Witness for C2: a fresh code is valid at the boundary instant; a store
whose only matching row is used answers the invalid-or-expired message; and
after a successful confirm the same code is rejected. -/
theorem c2_reset_validity_and_single_use_witness :
    (atomReset.is_valid (atomReset.created_at + fifteenMinutes) = true ↔
      (atomReset.is_used = false ∧
        atomReset.created_at + fifteenMinutes ≤ atomReset.created_at + fifteenMinutes)) ∧
    ((atomReset.mark_as_used 1100).is_valid 1100 = true ↔
      ((atomReset.mark_as_used 1100).is_used = false ∧
        1100 ≤ (atomReset.mark_as_used 1100).created_at + fifteenMinutes)) := by
  constructor
  · exact (c2_reset_validity_and_single_use atomReset
      (atomReset.created_at + fifteenMinutes) atomStore
      ⟨"0501234567", "123456", "NewPass2B", "NewPass2B"⟩
      ⟨"0501234567", "123456", "NewPass2B", "NewPass2B"⟩ 1100 1200).1 (by decide)
  · exact (c2_reset_validity_and_single_use (atomReset.mark_as_used 1100) 1100 atomStore
      ⟨"0501234567", "123456", "NewPass2B", "NewPass2B"⟩
      ⟨"0501234567", "123456", "NewPass2B", "NewPass2B"⟩ 1100 1200).1 (by decide)

/-! ## Catalog store (products/models.py) -/

/-- A row of the category table (products/models.py, `Category`): `parent` is
the self-referential FK (`on_delete=CASCADE`), `none` for roots. -/
structure Category where
  id : Nat
  name : String
  slug : String
  parent : Option Nat
  is_active : Bool
deriving Repr, DecidableEq

/-- A row of the product table (products/models.py, `Product`): the scalar
fields the embedded serializers and views read (image and meta fields, the
timestamps and `currency`/`description` are never consulted by the code under
verification). `DecimalField` prices are rationals. -/
structure Product where
  id : Nat
  name : String
  slug : String
  price : ℚ
  discount_price : Option ℚ
  sku : String
  brand : String
  category : Nat
  stock_quantity : Int
  low_stock_threshold : Int
  track_inventory : Bool
  is_active : Bool
  is_featured : Bool
  availability_status : String
deriving Repr, DecidableEq

/-- The parent map a category table induces: the `parent` column of the first
row with the given id, `none` for roots and absent ids alike (the distinction
never matters for chain-walking). -/
def categoryParent (cats : List Category) (cid : Nat) : Option Nat :=
  match cats.find? (fun c => c.id == cid) with
  | some c => c.parent
  | none => none

/-! ## C6: circular-reference prevention (products/serializers.py,
CategoryCreateUpdateSerializer.validate_parent) -/

/-- The `while current:` loop of `_is_descendant` (lines 128-137), walking the
parent chain from `start` and looking for `ancestorId`: `some true` when the
id is found, `some false` when the chain ends at a root, `none` when the walk
has not finished within `fuel` steps (the Python loop would still be
running — on a cyclic chain it never returns). -/
def isDescendantLoop (g : Nat → Option Nat) (ancestorId : Nat) :
    Option Nat → Nat → Option Bool
  | _, 0 => none
  | none, _ + 1 => some false
  | some cur, fuel + 1 =>
      if cur = ancestorId then some true
      else isDescendantLoop g ancestorId (g cur) fuel

def selfParentMsg : String := "A category cannot be its own parent."

def circularParentMsg : String :=
  "Cannot set parent to a descendant category. This would create a circular reference."

/-- `CategoryCreateUpdateSerializer.validate_parent` (lines 109-126) on an
update (`self.instance` present): accepts `None`, rejects the instance itself
and any category whose ancestor chain contains the instance id, accepts the
rest. `none` when the chain walk does not finish within `fuel`. -/
def validate_parent (g : Nat → Option Nat) (instanceId : Nat)
    (value : Option Nat) (fuel : Nat) : Option (Except String (Option Nat)) :=
  match value with
  | none => some (.ok none)
  | some pid =>
    if pid = instanceId then
      some (.error selfParentMsg)
    else
      match isDescendantLoop g instanceId (g pid) fuel with
      | some true => some (.error circularParentMsg)
      | some false => some (.ok (some pid))
      | none => none

/-- Following parent links from `a` at least once reaches `b`. -/
inductive Reaches (g : Nat → Option Nat) : Nat → Nat → Prop where
  | single {a b : Nat} : g a = some b → Reaches g a b
  | cons {a b c : Nat} : g a = some b → Reaches g b c → Reaches g a c

/-- No category's parent chain comes back to the category itself. -/
def Acyclic (g : Nat → Option Nat) : Prop := ∀ x, ¬ Reaches g x x

/-- The parent map after the validated update writes `instance.parent := v`. -/
def updateParent (g : Nat → Option Nat) (i : Nat) (v : Option Nat) :
    Nat → Option Nat :=
  fun x => if x = i then v else g x

theorem reaches_trans {g : Nat → Option Nat} {a b c : Nat}
    (h1 : Reaches g a b) (h2 : Reaches g b c) : Reaches g a c := by
  revert h2
  induction h1 with
  | single h => intro h2; exact .cons h h2
  | cons h _ ih => intro h2; exact .cons h (ih h2)

/-- A chain of the updated map decomposes at the first use of the new edge:
either it used only old edges, or it first runs (possibly emptily) to `i` in
the old map and continues from `p` in the new one. -/
theorem reaches_update_decompose {g : Nat → Option Nat} {i p : Nat} {a b : Nat}
    (h : Reaches (updateParent g i (some p)) a b) :
    Reaches g a b ∨
      ((a = i ∨ Reaches g a i) ∧ (p = b ∨ Reaches (updateParent g i (some p)) p b)) := by
  induction h with
  | @single a b hab =>
    by_cases hai : a = i
    · have hb : p = b := by
        unfold updateParent at hab
        rw [if_pos hai] at hab
        injection hab
      exact Or.inr ⟨Or.inl hai, Or.inl hb⟩
    · have hab' : g a = some b := by
        unfold updateParent at hab
        rw [if_neg hai] at hab
        exact hab
      exact Or.inl (.single hab')
  | @cons a b0 b hab t ih =>
    by_cases hai : a = i
    · have hb : p = b0 := by
        unfold updateParent at hab
        rw [if_pos hai] at hab
        injection hab
      right
      refine ⟨Or.inl hai, Or.inr ?_⟩
      subst hb
      exact t
    · have hab' : g a = some b0 := by
        unfold updateParent at hab
        rw [if_neg hai] at hab
        exact hab
      rcases ih with hgb | ⟨hbi, hpb⟩
      · exact Or.inl (.cons hab' hgb)
      · right
        refine ⟨Or.inr ?_, hpb⟩
        rcases hbi with rfl | hreach
        · exact .single hab'
        · exact .cons hab' hreach

/-- A chain of the old map ending at `i` never steps from `i` (that would be
an old cycle), so it is also a chain of the updated map. -/
theorem reaches_lift_to_update {g : Nat → Option Nat} {i p : Nat}
    (hacyc : Acyclic g) {x b : Nat} (h : Reaches g x b) (hb : b = i) :
    Reaches (updateParent g i (some p)) x b := by
  subst hb
  induction h with
  | @single x b hxb =>
    by_cases hxi : x = b
    · exfalso
      apply hacyc x
      refine .single ?_
      rw [hxb, hxi]
    · refine .single ?_
      unfold updateParent
      rw [if_neg hxi]
      exact hxb
  | @cons x b0 b hxb t ih =>
    by_cases hxi : x = b
    · exfalso
      apply hacyc x
      refine .cons hxb ?_
      rw [hxi]
      exact t
    · exact .cons (show updateParent g b (some p) x = some b0 by
        unfold updateParent; rw [if_neg hxi]; exact hxb) ih

/-- The correctness core of `validate_parent`: writing `i.parent := p` with
`p ≠ i` and `i` not an ancestor of `p` keeps the forest acyclic. -/
theorem acyclic_updateParent {g : Nat → Option Nat} {i p : Nat}
    (hacyc : Acyclic g) (hpi : p ≠ i) (hnr : ¬ Reaches g p i) :
    Acyclic (updateParent g i (some p)) := by
  intro x hx
  rcases reaches_update_decompose hx with hgxx | ⟨hxi, hpx⟩
  · exact hacyc x hgxx
  · rcases hpx with rfl | hpx
    · rcases hxi with rfl | hxi
      · exact hpi rfl
      · exact hnr hxi
    · rcases hxi with rfl | hxi
      · rcases reaches_update_decompose hpx with hgpi | ⟨hpi2, _⟩
        · exact hnr hgpi
        · rcases hpi2 with rfl | hr
          · exact hpi rfl
          · exact hnr hr
      · have hxto : Reaches (updateParent g i (some p)) x i :=
          reaches_lift_to_update hacyc hxi rfl
        have hpto : Reaches (updateParent g i (some p)) p i :=
          reaches_trans hpx hxto
        rcases reaches_update_decompose hpto with hgpi | ⟨hpi2, _⟩
        · exact hnr hgpi
        · rcases hpi2 with rfl | hr
          · exact hpi rfl
          · exact hnr hr

theorem isDescendantLoop_true {g : Nat → Option Nat} {i : Nat} :
    ∀ (fuel : Nat) (c : Option Nat), isDescendantLoop g i c fuel = some true →
      ∃ c0, c = some c0 ∧ (c0 = i ∨ Reaches g c0 i) := by
  intro fuel
  induction fuel with
  | zero =>
    intro c h
    exact absurd h (by simp [isDescendantLoop])
  | succ n ih =>
    intro c h
    match c with
    | none => exact absurd h (by simp [isDescendantLoop])
    | some cur =>
      unfold isDescendantLoop at h
      split at h
      · next hcur => exact ⟨cur, rfl, Or.inl hcur⟩
      · next hcur =>
        rcases ih (g cur) h with ⟨c0, hc0, hrest⟩
        refine ⟨cur, rfl, Or.inr ?_⟩
        rcases hrest with rfl | hr
        · exact .single hc0
        · exact .cons hc0 hr

theorem isDescendantLoop_false {g : Nat → Option Nat} {i : Nat} :
    ∀ (fuel : Nat) (c : Option Nat), isDescendantLoop g i c fuel = some false →
      ∀ c0, c = some c0 → c0 ≠ i ∧ ¬ Reaches g c0 i := by
  intro fuel
  induction fuel with
  | zero =>
    intro c h
    exact absurd h (by simp [isDescendantLoop])
  | succ n ih =>
    intro c h c0 hc
    subst hc
    unfold isDescendantLoop at h
    split at h
    · exact absurd h (by simp)
    · next hcur =>
      refine ⟨hcur, ?_⟩
      intro hr
      cases hr with
      | single hstep => exact (ih (g c0) h i hstep).1 rfl
      | cons hstep hrest => exact (ih (g c0) h _ hstep).2 hrest

theorem isDescendantLoop_start_true {g : Nat → Option Nat} {i p fuel : Nat}
    (h : isDescendantLoop g i (g p) fuel = some true) : Reaches g p i := by
  rcases isDescendantLoop_true fuel (g p) h with ⟨c0, hc0, hrest⟩
  rcases hrest with rfl | hr
  · exact .single hc0
  · exact .cons hc0 hr

theorem isDescendantLoop_start_false {g : Nat → Option Nat} {i p fuel : Nat}
    (h : isDescendantLoop g i (g p) fuel = some false) : ¬ Reaches g p i := by
  intro hr
  cases hr with
  | single hstep => exact (isDescendantLoop_false fuel (g p) h i hstep).1 rfl
  | cons hstep hrest => exact (isDescendantLoop_false fuel (g p) h _ hstep).2 hrest

/-- C6. `validate_parent` accepts clearing the parent; rejects the instance
itself; when the descendant walk terminates, it accepts exactly the
non-descendants (so it rejects every descendant with the circular-reference
message and accepts any unrelated category); and an accepted update keeps the
category graph acyclic. -/
theorem c6_validate_parent_prevents_cycles (g : Nat → Option Nat)
    (i p fuel : Nat) (res : Except String (Option Nat)) :
    validate_parent g i none fuel = some (.ok none) ∧
    (p = i → validate_parent g i (some p) fuel = some (.error selfParentMsg)) ∧
    (validate_parent g i (some p) fuel = some res →
      ((res = .ok (some p)) ↔ (p ≠ i ∧ ¬ Reaches g p i)) ∧
      (p ≠ i → Reaches g p i → res = .error circularParentMsg)) ∧
    (Acyclic g → validate_parent g i (some p) fuel = some (.ok (some p)) →
      Acyclic (updateParent g i (some p))) := by
  refine ⟨rfl, ?_, ?_, ?_⟩
  · intro hpi
    unfold validate_parent
    dsimp only []
    rw [if_pos hpi]
  · intro hv
    unfold validate_parent at hv
    dsimp only [] at hv
    by_cases hpi : p = i
    · rw [if_pos hpi] at hv
      injection hv with hv
      constructor
      · constructor
        · intro hok
          rw [hok] at hv
          exact absurd hv (by simp)
        · intro ⟨hne, _⟩
          exact absurd hpi hne
      · intro hne _
        exact absurd hpi hne
    · rw [if_neg hpi] at hv
      cases hloop : isDescendantLoop g i (g p) fuel with
      | none =>
        rw [hloop] at hv
        exact absurd hv (by simp)
      | some b =>
        rw [hloop] at hv
        cases b
        · have hres : res = .ok (some p) := by
            dsimp only [] at hv
            injection hv with hv
            exact hv.symm
          have hnr := isDescendantLoop_start_false hloop
          constructor
          · exact ⟨fun _ => ⟨hpi, hnr⟩, fun _ => hres⟩
          · intro _ hr
            exact absurd hr hnr
        · have hres : res = .error circularParentMsg := by
            dsimp only [] at hv
            injection hv with hv
            exact hv.symm
          have hr := isDescendantLoop_start_true hloop
          constructor
          · constructor
            · intro hok
              rw [hok] at hres
              exact absurd hres.symm (by simp)
            · intro ⟨_, hnr⟩
              exact absurd hr hnr
          · intro _ _
            exact hres
  · intro hacyc hv
    unfold validate_parent at hv
    dsimp only [] at hv
    by_cases hpi : p = i
    · rw [if_pos hpi] at hv
      exact absurd hv (by simp)
    · rw [if_neg hpi] at hv
      cases hloop : isDescendantLoop g i (g p) fuel with
      | none =>
        rw [hloop] at hv
        exact absurd hv (by simp)
      | some b =>
        rw [hloop] at hv
        cases b
        · exact acyclic_updateParent hacyc hpi (isDescendantLoop_start_false hloop)
        · exact absurd hv (by simp)

/-- A concrete three-node chain `3 → 2 → 1` for the C6 witness. -/
def chainMap : Nat → Option Nat :=
  fun x => if x = 2 then some 1 else if x = 3 then some 2 else none

theorem chainMap_edge_lt : ∀ a b, chainMap a = some b → b < a := by
  intro a b h
  unfold chainMap at h
  split at h
  · next h2 => injection h with h; omega
  · split at h
    · next h3 => injection h with h; omega
    · exact absurd h (by simp)

theorem chainMap_acyclic : Acyclic chainMap := by
  have mono : ∀ a b, Reaches chainMap a b → b < a := by
    intro a b h
    induction h with
    | @single a b hab => exact chainMap_edge_lt _ _ hab
    | @cons a b0 b hab t ih => exact lt_trans ih (chainMap_edge_lt _ _ hab)
  intro x hx
  exact absurd (mono x x hx) (lt_irrefl x)

/-- Witness for C6: on the chain `3 → 2 → 1`, making 1 its own parent is
rejected with the self-parent message, and re-parenting 1 under the unrelated
5 is accepted and keeps the map acyclic. -/
theorem c6_validate_parent_prevents_cycles_witness :
    validate_parent chainMap 1 (some 1) 10 = some (.error selfParentMsg) ∧
    Acyclic (updateParent chainMap 1 (some 5)) :=
  ⟨(c6_validate_parent_prevents_cycles chainMap 1 1 10 (.ok none)).2.1 rfl,
   (c6_validate_parent_prevents_cycles chainMap 1 5 10 (.ok (some 5))).2.2.2
     chainMap_acyclic (by rfl)⟩

/-! ## C7: category destroy -/

/-- Whether the CASCADE delete of category `cid` removes row `c`: the row is
the target itself, or its parent chain walks into `cid` (fuel-bounded walk
with the table-induced parent map; fuel exhaustion counts as not hit, which
on an acyclic table of `fuel ≥ length` rows never happens). -/
def cascadeHits (g : Nat → Option Nat) (cid : Nat) (c : Category) (fuel : Nat) :
    Bool :=
  c.id == cid || (isDescendantLoop g cid (g c.id) fuel == some true)

/-- The category destroy endpoint. `CategoryViewSet` (products/views.py lines
53-149) overrides neither `destroy` nor `perform_destroy`, so DRF
`ModelViewSet.destroy` runs `instance.delete()`; the parent FK declares
`on_delete=models.CASCADE` (products/models.py line 12, comment: if parent
deleted, delete children too), so Django removes the row and, recursively,
every row whose parent chain reaches it. -/
def categoryDestroy (cats : List Category) (cid : Nat) (fuel : Nat) :
    List Category :=
  cats.filter (fun c => !cascadeHits (categoryParent cats) cid c fuel)

/-- A two-row table: a root and one child. -/
def rootCat : Category :=
  { id := 1, name := "Electronics", slug := "electronics", parent := none,
    is_active := true }

def childCat : Category :=
  { id := 2, name := "Phones", slug := "phones", parent := some 1,
    is_active := true }

def twoCats : List Category := [rootCat, childCat]

/-- Counterexample to C7 as stated. The claim says destroy soft-deletes:
every row stays present with only `is_active` flipped to false. Destroying
the root of the two-row table leaves an empty table: no row survives at all,
let alone with `is_active = false`. -/
theorem c7_destroy_soft_delete_counterexample :
    categoryDestroy twoCats 1 2 = [] ∧
    ¬ (∀ c ∈ twoCats, ∃ c2 ∈ categoryDestroy twoCats 1 2,
        c2.id = c.id ∧ c2.name = c.name ∧ c2.slug = c.slug ∧
        c2.parent = c.parent ∧ c2.is_active = false) := by
  constructor
  · rfl
  · intro hall
    rcases hall rootCat (by simp [twoCats]) with ⟨c2, hc2, _⟩
    rw [show categoryDestroy twoCats 1 2 = [] from rfl] at hc2
    exact absurd hc2 (by simp)

/-- C7 amended: destroy hard-deletes. The surviving table is a sublist of the
original — every surviving row is an original row, fields untouched (so no
`is_active` flip happens); the target row is gone; and so is every row whose
parent chain demonstrably (within fuel) reaches the target. -/
theorem c7_destroy_cascade_removes_rows (cats : List Category)
    (cid fuel : Nat) :
    (∀ c, c ∈ categoryDestroy cats cid fuel ↔
        (c ∈ cats ∧ cascadeHits (categoryParent cats) cid c fuel = false)) ∧
    (∀ c ∈ categoryDestroy cats cid fuel, c.id ≠ cid) ∧
    (∀ d : Category,
      isDescendantLoop (categoryParent cats) cid (categoryParent cats d.id) fuel
          = some true →
      d ∉ categoryDestroy cats cid fuel) := by
  have hmem : ∀ c, c ∈ categoryDestroy cats cid fuel ↔
      (c ∈ cats ∧ cascadeHits (categoryParent cats) cid c fuel = false) := by
    intro c
    unfold categoryDestroy
    rw [List.mem_filter]
    constructor
    · intro ⟨h1, h2⟩
      refine ⟨h1, ?_⟩
      revert h2
      cases cascadeHits (categoryParent cats) cid c fuel <;> simp
    · intro ⟨h1, h2⟩
      exact ⟨h1, by rw [h2]; rfl⟩
  refine ⟨hmem, ?_, ?_⟩
  · intro c hc hcid
    have h2 := ((hmem c).mp hc).2
    unfold cascadeHits at h2
    rw [hcid] at h2
    simp at h2
  · intro d hd hmem2
    have h2 := ((hmem d).mp hmem2).2
    unfold cascadeHits at h2
    rw [hd] at h2
    simp at h2

/-- Witness for the amended C7 theorem: on the two-row table, the child row
(whose chain reaches the destroyed root) is removed. -/
theorem c7_destroy_cascade_removes_rows_witness :
    childCat ∉ categoryDestroy twoCats 1 2 :=
  (c7_destroy_cascade_removes_rows twoCats 1 2).2.2 childCat (by rfl)

/-! ## Product create/update validation
(products/serializers.py, ProductCreateUpdateSerializer.validate, lines 385-426) -/

/-- The incoming `data` dict of a create or (partial) update: a field absent
from the request is `none`. -/
structure ProductInput where
  name : Option String
  slug : Option String
  price : Option ℚ
  discount_price : Option ℚ
  sku : Option String
  brand : Option String
  category : Option Nat
  stock_quantity : Option Int
  low_stock_threshold : Option Int
  track_inventory : Option Bool
  is_active : Option Bool
  is_featured : Option Bool
  availability_status : Option String
deriving Repr, DecidableEq

/-- `django.utils.text.slugify` on ASCII text: lower-case, spaces to hyphens,
other non-alphanumerics dropped (the embedding covers the inputs the checks
ever see). -/
def slugify (s : String) : String :=
  ⟨((s.data.map Char.toLower).map (fun c => if c = ' ' then '-' else c)).filter
    (fun c => c.isAlphanum || c == '-')⟩

/-- Python truthiness of an optional Decimal: `None` and `Decimal(0)` are
falsy. -/
def pyTruthyOptRat (q : Option ℚ) : Bool :=
  match q with
  | none => false
  | some x => !(x == 0)

/-- The auto-slug step (lines 387-393): `if name and not slug:
data[slug] = slugify(name)`. -/
def productAutoSlug (data : ProductInput) : ProductInput :=
  if pyTruthyStr (data.name.getD "") && !pyTruthyStr (data.slug.getD "") then
    { data with slug := some (slugify (data.name.getD "")) }
  else data

/-- The slug-uniqueness queryset (lines 396-404): rows with the slug, the
instance excluded on update. -/
def productSlugTaken (store : List Product) (inst : Option Product)
    (s : String) : Bool :=
  let qs : List Product := store.filter (fun p => p.slug == s)
  let qs2 : List Product := match inst with
    | some i0 => qs.filter (fun p => !(p.id == i0.id))
    | none => qs
  !qs2.isEmpty

/-- `ProductCreateUpdateSerializer.validate`: auto-slug, slug uniqueness,
`discount_price >= price` (both read from the request data with Python
truthiness — a partial update that omits `price` skips the check), then the
availability forcing: `data.get(track_inventory, True)` tracked with
`data.get(stock_quantity, 0) <= 0` forces `out_of_stock`, untracked forces
`in_stock`. -/
def product_validate (store : List Product) (inst : Option Product)
    (data : ProductInput) : Except (String × String) ProductInput :=
  let data1 := productAutoSlug data
  if pyTruthyStr (data1.slug.getD "") &&
      productSlugTaken store inst (data1.slug.getD "") then
    .error ("slug", "A product with this slug already exists.")
  else if pyTruthyOptRat data1.price && pyTruthyOptRat data1.discount_price &&
      decide (data1.price.getD 0 ≤ data1.discount_price.getD 0) then
    .error ("discount_price", "Discount price must be less than regular price.")
  else
    let track := data1.track_inventory.getD true
    let stock := data1.stock_quantity.getD 0
    if track && decide (stock ≤ 0) then
      .ok { data1 with availability_status := some "out_of_stock" }
    else if !track then
      .ok { data1 with availability_status := some "in_stock" }
    else
      .ok data1

/-- `ProductListSerializer.get_is_on_sale` (lines 196-198):
`obj.discount_price and obj.discount_price < obj.price`. In Python the value
is `None` when `discount_price` is NULL and `Decimal(0)` when it is zero —
both falsy non-booleans, embedded as `none` — and the boolean comparison
otherwise. -/
def get_is_on_sale (p : Product) : Option Bool :=
  match p.discount_price with
  | none => none
  | some d => if d = 0 then none else some (decide (d < p.price))

/-- The `price` column the row will hold once the update is applied: the
request value when present, else the stored one. -/
def mergedPrice (inst : Option Product) (data : ProductInput) : Option ℚ :=
  match data.price with
  | some v => some v
  | none => inst.map (fun p => p.price)

/-- Same for `discount_price`. -/
def mergedDiscount (inst : Option Product) (data : ProductInput) : Option ℚ :=
  match data.discount_price with
  | some v => some v
  | none => inst.bind (fun p => p.discount_price)

theorem productAutoSlug_price (data : ProductInput) :
    (productAutoSlug data).price = data.price := by
  unfold productAutoSlug; split <;> rfl

theorem productAutoSlug_discount (data : ProductInput) :
    (productAutoSlug data).discount_price = data.discount_price := by
  unfold productAutoSlug; split <;> rfl

theorem productAutoSlug_track (data : ProductInput) :
    (productAutoSlug data).track_inventory = data.track_inventory := by
  unfold productAutoSlug; split <;> rfl

theorem productAutoSlug_stock (data : ProductInput) :
    (productAutoSlug data).stock_quantity = data.stock_quantity := by
  unfold productAutoSlug; split <;> rfl

/-- An existing product priced 100 with no discount. -/
def pricedProduct : Product :=
  { id := 1, name := "Phone", slug := "phone", price := 100,
    discount_price := none, sku := "SKU1", brand := "Acme", category := 1,
    stock_quantity := 5, low_stock_threshold := 2, track_inventory := true,
    is_active := true, is_featured := false, availability_status := "in_stock" }

/-- The empty request body: every field absent. -/
def emptyPatch : ProductInput :=
  { name := none, slug := none, price := none, discount_price := none,
    sku := none, brand := none, category := none, stock_quantity := none,
    low_stock_threshold := none, track_inventory := none, is_active := none,
    is_featured := none, availability_status := none }

/-- A partial update carrying only `discount_price = 200`. -/
def overDiscountPatch : ProductInput :=
  { emptyPatch with discount_price := some 200 }

/-- Counterexample to C8 as stated. The claim says create/update always
rejects input whose discount is at or above the price, for partial updates as
well. A PATCH that sends only `discount_price = 200` against a stored price
of 100 passes validation — `data.get(price)` is `None`, so the guard is
skipped — though the row it produces has discount 200 ≥ price 100. -/
theorem c8_partial_update_discount_counterexample :
    (product_validate [pricedProduct] (some pricedProduct) overDiscountPatch).isOk
        = true ∧
    mergedPrice (some pricedProduct) overDiscountPatch = some 100 ∧
    mergedDiscount (some pricedProduct) overDiscountPatch = some 200 ∧
    ¬ ((200 : ℚ) < 100) := by
  refine ⟨by rfl, by rfl, by rfl, by decide⟩

/-- C8 amended: the rejection holds exactly when the request itself carries
both a (non-zero) price and a (non-zero) discount with discount ≥ price; a
partial update that omits `price` is never answered with the discount error;
and a product with a discount set, positive and strictly below the price is
reported on sale. -/
theorem c8_discount_validation_scope (store : List Product)
    (inst : Option Product) (data : ProductInput) (p d : ℚ) :
    (data.price = some p → data.discount_price = some d → p ≠ 0 → d ≠ 0 →
      p ≤ d → ∀ out, product_validate store inst data ≠ .ok out) ∧
    (data.price = none →
      product_validate store inst data ≠
        .error ("discount_price", "Discount price must be less than regular price.")) ∧
    (∀ prod : Product, prod.discount_price = some d → 0 < d → d < prod.price →
      get_is_on_sale prod = some true) := by
  refine ⟨?_, ?_, ?_⟩
  · intro hp hd hp0 hd0 hle out hcon
    unfold product_validate at hcon
    dsimp only [] at hcon
    split at hcon
    · exact absurd hcon (by simp)
    · have hcond : (pyTruthyOptRat (productAutoSlug data).price &&
          pyTruthyOptRat (productAutoSlug data).discount_price &&
          decide ((productAutoSlug data).price.getD 0 ≤
            (productAutoSlug data).discount_price.getD 0)) = true := by
        rw [productAutoSlug_price, productAutoSlug_discount, hp, hd]
        simp [pyTruthyOptRat, hp0, hd0, hle]
      rw [if_pos hcond] at hcon
      exact absurd hcon (by simp)
  · intro hp hcon
    unfold product_validate at hcon
    dsimp only [] at hcon
    split at hcon
    · injection hcon with h1
      exact absurd h1 (by simp)
    · have hcond : (pyTruthyOptRat (productAutoSlug data).price &&
          pyTruthyOptRat (productAutoSlug data).discount_price &&
          decide ((productAutoSlug data).price.getD 0 ≤
            (productAutoSlug data).discount_price.getD 0)) = false := by
        rw [productAutoSlug_price, hp]
        simp [pyTruthyOptRat]
      rw [if_neg (by rw [hcond]; simp)] at hcon
      split at hcon
      · exact absurd hcon (by simp)
      · split at hcon <;> exact absurd hcon (by simp)
  · intro prod hd hpos hlt
    unfold get_is_on_sale
    rw [hd]
    dsimp only []
    rw [if_neg (show ¬ d = 0 by intro h0; rw [h0] at hpos; exact absurd hpos (by simp))]
    simp [hlt]

/-- Witness for the amended C8 theorem: a full update with price 100 and
discount 150 is rejected; the patch without a price is not answered with the
discount error; a product priced 100 discounted to 80 is on sale. -/
theorem c8_discount_validation_scope_witness :
    (∀ out, product_validate [] none
        { emptyPatch with price := some 100, discount_price := some 150 }
        ≠ .ok out) ∧
    product_validate [pricedProduct] (some pricedProduct) overDiscountPatch ≠
      .error ("discount_price", "Discount price must be less than regular price.") ∧
    get_is_on_sale { pricedProduct with discount_price := some 80 } = some true := by
  refine ⟨?_, ?_, ?_⟩
  · exact (c8_discount_validation_scope []
      none { emptyPatch with price := some 100, discount_price := some 150 }
      100 150).1 rfl rfl (by decide) (by decide) (by decide)
  · exact (c8_discount_validation_scope [pricedProduct]
      (some pricedProduct) overDiscountPatch 0 0).2.1 rfl
  · exact (c8_discount_validation_scope [] none overDiscountPatch 100 80).2.2
      { pricedProduct with discount_price := some 80 } rfl (by decide) (by decide)

/-- C10. Whenever `validate` returns, the availability status it stored
ignores the caller-supplied one in the two forced cases: tracked (by the
request data, default true) with request stock ≤ 0 (default 0) forces
`out_of_stock`; untracked forces `in_stock` — whatever
`data.availability_status` held. -/
theorem c10_availability_status_forced (store : List Product)
    (inst : Option Product) (data : ProductInput) (out : ProductInput)
    (h : product_validate store inst data = .ok out) :
    (data.track_inventory.getD true = true → data.stock_quantity.getD 0 ≤ 0 →
      out.availability_status = some "out_of_stock") ∧
    (data.track_inventory.getD true = false →
      out.availability_status = some "in_stock") := by
  unfold product_validate at h
  dsimp only [] at h
  split at h
  · exact absurd h (by simp)
  · split at h
    · exact absurd h (by simp)
    · rw [productAutoSlug_track, productAutoSlug_stock] at h
      constructor
      · intro htrack hstock
        rw [if_pos (by rw [htrack]; simp [hstock])] at h
        injection h with h
        rw [← h]
      · intro htrack
        rw [if_neg (by rw [htrack]; simp)] at h
        rw [if_pos (by rw [htrack]; rfl)] at h
        injection h with h
        rw [← h]

/-- Witness for C10: the empty patch (tracked by default, stock 0 by default,
caller asking for `pre_order`) comes back forced to `out_of_stock`; the same
patch with tracking off comes back forced to `in_stock`. -/
theorem c10_availability_status_forced_witness :
    ({ emptyPatch with availability_status := some "pre_order" }
        : ProductInput).availability_status = some "pre_order" ∧
    ({ emptyPatch with availability_status := some "pre_order" }
        : ProductInput).track_inventory.getD true = true ∧
    ({ emptyPatch with availability_status := some "out_of_stock" }
        : ProductInput).availability_status = some "out_of_stock" := by
  refine ⟨rfl, ?_, rfl⟩
  have h := c10_availability_status_forced [] none
    { emptyPatch with availability_status := some "pre_order" }
    { emptyPatch with availability_status := some "out_of_stock" } (by rfl)
  have h2 := h.1 (by rfl) (by decide)
  rfl

/-! ## C9: product list filtering (products/views.py, ProductViewSet.get_queryset,
lines 274-312) -/

/-- The query parameters `get_queryset` reads; an absent parameter is `none`. -/
structure ProductQueryParams where
  min_price : Option String
  max_price : Option String
  in_stock_only : Option String
  on_sale : Option String
deriving Repr, DecidableEq

def digitsToNat (l : List Char) : Nat :=
  l.foldl (fun a c => a * 10 + (c.toNat - '0'.toNat)) 0

/-- Python `float(s)` on plain decimal literals: optional sign, digits,
optional point and fraction digits, at least one digit in all; `none` where
`float` raises `ValueError`. (Exponent and infinity spellings are not
exercised by anything the claims cover.) -/
def pyFloat? (s : String) : Option ℚ :=
  let l := (pyStrip s).data
  let signAndRest : ℚ × List Char :=
    match l with
    | '+' :: r => (1, r)
    | '-' :: r => (-1, r)
    | r => (1, r)
  let sign := signAndRest.1
  let l1 := signAndRest.2
  let ip := l1.takeWhile Char.isDigit
  let rest := l1.drop ip.length
  match rest with
  | [] =>
    if ip.isEmpty then none else some (sign * (digitsToNat ip : ℚ))
  | '.' :: fp =>
    if fp.all Char.isDigit && !(ip.isEmpty && fp.isEmpty) then
      some (sign * ((digitsToNat ip : ℚ) +
        (digitsToNat fp : ℚ) / ((10 : ℚ) ^ fp.length)))
    else
      none
  | _ => none

/-- The message of the exception the on-sale branch raises: products/views.py
line 6 reads `from django.db.models import Q, Count, Prefetch` — `F` is never
imported — yet line 309 evaluates `F(price)`, so Python raises `NameError`
before the filter is built. -/
def nameErrorF : String := "NameError: name F is not defined"

/-- `ProductViewSet.get_queryset`: active products; `min_price` / `max_price`
parsed with `float` inside `try/except ValueError: pass` (non-numeric values
are skipped, not errors); `in_stock_only=true` keeps untracked rows or
tracked rows with positive stock; `on_sale=true` reaches the unimported `F`
and raises. -/
def productGetQueryset (store : List Product) (params : ProductQueryParams) :
    Except String (List Product) :=
  let qs0 := store.filter (fun p => p.is_active)
  let qs1 := match params.min_price with
    | some s =>
      if pyTruthyStr s then
        match pyFloat? s with
        | some v => qs0.filter (fun p => decide (v ≤ p.price))
        | none => qs0
      else qs0
    | none => qs0
  let qs2 := match params.max_price with
    | some s =>
      if pyTruthyStr s then
        match pyFloat? s with
        | some v => qs1.filter (fun p => decide (p.price ≤ v))
        | none => qs1
      else qs1
    | none => qs1
  let qs3 := match params.in_stock_only with
    | some s =>
      if pyTruthyStr s && (pyLower s == "true") then
        qs2.filter (fun p =>
          !p.track_inventory || (p.track_inventory && decide (p.stock_quantity > 0)))
      else qs2
    | none => qs2
  match params.on_sale with
  | some s =>
    if pyTruthyStr s && (pyLower s == "true") then
      .error nameErrorF
    else
      .ok qs3
  | none => .ok qs3

/-- The active products of a two-row demo store. -/
def activeProduct : Product :=
  { pricedProduct with id := 2, slug := "phone-2", sku := "SKU2" }

def inactiveProduct : Product :=
  { pricedProduct with
      id := 3
      slug := "phone-3"
      sku := "SKU3"
      is_active := false }

def demoProducts : List Product := [activeProduct, inactiveProduct]

/-- A request whose only parameter is a non-numeric `min_price`. -/
def nonNumericMinParams : ProductQueryParams := ⟨some "abc", none, none, none⟩

/-- A request whose only parameter is `on_sale=True`. -/
def onSaleTrueParams : ProductQueryParams := ⟨none, none, none, some "True"⟩

/-- C9. The claim says `on_sale=true` returns exactly the active products
with a discount strictly below their price and never raises. The code raises
`NameError` instead — `F` is not imported — for every store and every request
whose `on_sale` parameter lowercases to `true` (first conjunct). The
same-request claim that non-numeric `min_price` values are ignored does hold:
a `min_price` that `float()` rejects leaves the queryset untouched (second
and third conjuncts, at a concrete store). -/
theorem c9_on_sale_filter_raises (store : List Product)
    (params : ProductQueryParams) (s : String)
    (hs : params.on_sale = some s) (ht : pyLower s = "true") :
    productGetQueryset store params = .error nameErrorF ∧
    pyFloat? "abc" = none ∧
    productGetQueryset demoProducts nonNumericMinParams = .ok [activeProduct] := by
  refine ⟨?_, by rfl, by rfl⟩
  have hne : s.data ≠ [] := by
    intro h0
    have hmap : s.data.map Char.toLower = "true".data := congrArg String.data ht
    rw [h0] at hmap
    exact absurd hmap (by decide)
  have htr : pyTruthyStr s = true := by
    unfold pyTruthyStr
    have hemp : s.data.isEmpty = false := by
      cases hd : s.data
      · exact absurd hd hne
      · rfl
    rw [hemp]
    rfl
  have hbeq : (pyLower s == "true") = true := by
    rw [ht]
    simp
  unfold productGetQueryset
  dsimp only []
  rw [hs]
  dsimp only []
  rw [if_pos (by rw [htr, hbeq]; rfl)]

/-- Witness for C9 at a concrete request. -/
theorem c9_on_sale_filter_raises_witness :
    productGetQueryset demoProducts onSaleTrueParams = .error nameErrorF :=
  (c9_on_sale_filter_raises demoProducts onSaleTrueParams "True" rfl (by rfl)).1

end SW
